import Mathlib

/-
Verification development for the system-metrics monitoring excerpt.

Modelled Python sources:
- `mlflow/system_metrics/system_metrics_monitor.py` (class `SystemMetricsMonitor`)
- `mlflow/entities/metric.py` (class `Metric`)

Modelling conventions:
- Python dicts are association lists in insertion order; `dict.update` and
  dict comprehensions are modelled by `dictInsert`/`dictUpdate`/`pyDictOfList`
  below, which reproduce the update-in-place / append-new-key semantics.
- Fallible calls return `Except`; a raised exception that the Python code
  catches is a handled `.error` branch.
- External collaborators that are not part of the excerpt (the run-status
  backend behind `get_run`, the `BatchMetricsLogger` sink, the threading
  event) are modelled as oracles: per-call answer streams indexed by how
  many times the monitor has invoked them.
-/

/-! ## Python dict model -/

/-- One Python dict assignment `d[k] = v`: if `k` is already a key its value
is replaced in place (keeping the key's original position), otherwise the
pair is appended at the end, as in Python 3.7+ insertion-ordered dicts. -/
def dictInsert {K V : Type} [DecidableEq K] (d : List (K × V)) (k : K) (v : V) :
    List (K × V) :=
  if d.any (fun p => p.1 == k) then d.map (fun p => if p.1 = k then (k, v) else p)
  else d ++ [(k, v)]

/-- Python `d.update(u)`: assign every pair of `u`, in order, into `d`. -/
def dictUpdate {K V : Type} [DecidableEq K] (d u : List (K × V)) : List (K × V) :=
  u.foldl (fun acc p => dictInsert acc p.1 p.2) d

/-- A Python dict comprehension over a key/value list, e.g.
`\x7bd.key: d.value for d in dims\x7d`: build a dict by assigning each pair in
order into an initially empty dict. -/
def pyDictOfList {K V : Type} [DecidableEq K] (l : List (K × V)) : List (K × V) :=
  dictUpdate [] l

/-- Python dict lookup `d.get(k)`: the value at the first (unique) matching key. -/
def dictGet? {K V : Type} [DecidableEq K] : List (K × V) → K → Option V
  | [], _ => none
  | p :: t, k => if p.1 = k then some p.2 else dictGet? t k

/-- The keys of the association list are pairwise distinct: the invariant of
every value that denotes an actual Python dict. -/
def keysNodup {K V : Type} (l : List (K × V)) : Prop := (l.map Prod.fst).Nodup

/-- Python `==` on two dicts: order-insensitive key/value equality. -/
def pyDictEq {K V : Type} [DecidableEq K] [DecidableEq V] (a b : List (K × V)) : Bool :=
  a.all (fun p => dictGet? b p.1 == some p.2) && b.all (fun p => dictGet? a p.1 == some p.2)

/-! ## The `Metric` entity (`mlflow/entities/metric.py`)

A Python object's attribute slots are modelled as `Option` fields of
`MetricAttrs`: `none` is an attribute that was never assigned, so that
reading it raises `AttributeError`.  `Metric.__init__` assigns exactly
`_key`, `_value`, `_timestamp`, `_step` and `_tags`; it never assigns
`_dimensions`.  The value type is an abstract `V` (a Python float is
copied verbatim by every modelled operation, so its structure is
irrelevant). -/

/-- A raised Python exception relevant to this entity. -/
inductive PyErr
  | attributeError
  deriving DecidableEq, Repr

/-- The instance attributes a `Metric` object can carry. -/
structure MetricAttrs (V : Type) where
  key : Option String
  value : Option V
  timestamp : Option Int
  step : Option Int
  tags : Option (List (String × String))
  dimensions : Option (List (String × String))
  deriving DecidableEq, Repr

/-- Reading an instance attribute: `AttributeError` when it was never set. -/
def pyGetAttr {α : Type} : Option α → Except PyErr α
  | none => .error .attributeError
  | some x => .ok x

namespace Metric

/-- Python `Metric.__init__(self, key, value, timestamp, step, tags)`: stores the five
arguments; `_tags` is `tags or \x7b\x7d`, so a falsy `tags` (Python `None`, or the
empty dict) becomes the empty dict.  `_dimensions` is never assigned. -/
def init {V : Type} (key : String) (value : V) (timestamp step : Int)
    (tags : Option (List (String × String))) : MetricAttrs V :=
  { key := some key
    value := some value
    timestamp := some timestamp
    step := some step
    tags := some (match tags with | none => [] | some t => t)
    dimensions := none }

/-- Insertion step of sorting the dimension pairs by key (Python
`sorted(self._dimensions)` iterates the keys in ascending order and the
hash input pairs each key with its value). -/
def insertByKey (p : String × String) : List (String × String) → List (String × String)
  | [] => [p]
  | q :: t => if p.1 ≤ q.1 then p :: q :: t else q :: insertByKey p t

/-- The dimension pairs in ascending key order. -/
def sortDims (d : List (String × String)) : List (String × String) :=
  d.foldr insertByKey []

/-- Python `Metric.__hash__`: first evaluates
`tuple((k, self._dimensions[k]) for k in sorted(self._dimensions))` - reading
`self._dimensions` - and then hashes the 5-tuple of `_key`, `_value`,
`_timestamp`, `_step` and that tuple.  Python's `hash` itself is opaque, so
the model returns the tuple handed to it. -/
def hashInput {V : Type} (m : MetricAttrs V) :
    Except PyErr (String × V × Int × Int × List (String × String)) := do
  let dims ← pyGetAttr m.dimensions
  let k ← pyGetAttr m.key
  let v ← pyGetAttr m.value
  let ts ← pyGetAttr m.timestamp
  let st ← pyGetAttr m.step
  .ok (k, v, ts, st, sortDims dims)

/-- Python `Metric.__eq__`: an `isinstance` check (both sides are `Metric` here) and then
`self.__dict__ == __o.__dict__`; the dict-valued slots `_tags` and
`_dimensions` compare with Python dict equality (order-insensitive), and the
`_value` slot compares with `veq`, the Python `==` of the value type - for
floats that comparison is not reflexive (`nan == nan` is `False` and makes
the whole dict comparison `False`), so it is passed in explicitly instead of
being taken from a decidable equality. -/
def eq {V : Type} (veq : V → V → Bool) (a b : MetricAttrs V) : Bool :=
  (a.key == b.key) &&
  (match a.value, b.value with
   | none, none => true
   | some x, some y => veq x y
   | _, _ => false) &&
  (a.timestamp == b.timestamp) && (a.step == b.step) &&
  (match a.tags, b.tags with
   | none, none => true
   | some x, some y => pyDictEq x y
   | _, _ => false) &&
  (match a.dimensions, b.dimensions with
   | none, none => true
   | some x, some y => pyDictEq x y
   | _, _ => false)

end Metric

/-- A Python float as its `==` semantics sees it: either a numeric value
(every such float is equal to itself) or `nan`. -/
inductive PyFloat
  | nan
  | num (q : ℚ)
  deriving DecidableEq, Repr

/-- Python `==` on floats: `nan` compares unequal to everything, itself
included; numeric values compare by value. -/
def pyFloatEq : PyFloat → PyFloat → Bool
  | .num a, .num b => a == b
  | _, _ => false

/-- Modelled from the spec: the wire-format message
(`mlflow.protos.service_pb2.Metric`, not part of the excerpt) is, per the
spec's description of the serialization interface, a record carrying the
measurement fields together with a repeated list of key/value dimensions. -/
structure ProtoMetric (V : Type) where
  key : String
  value : V
  timestamp : Int
  step : Int
  dimensions : List (String × String)
  deriving DecidableEq, Repr

namespace Metric

/-- Python `Metric.to_proto`: builds the proto with
`dimensions=[Dimension(key=k, value=v) for k, v in self.tags.items()]` and
then copies `key`, `value`, `timestamp`, `step`.  Each property read is an
attribute read and may raise. -/
def to_proto {V : Type} (m : MetricAttrs V) : Except PyErr (ProtoMetric V) := do
  let tags ← pyGetAttr m.tags
  let k ← pyGetAttr m.key
  let v ← pyGetAttr m.value
  let ts ← pyGetAttr m.timestamp
  let st ← pyGetAttr m.step
  .ok ⟨k, v, ts, st, tags⟩

/-- Python `Metric.from_proto`: `cls(proto.key, proto.value, proto.timestamp,
proto.step, \x7bd.key: d.value for d in proto.dimensions\x7d)`. -/
def from_proto {V : Type} (p : ProtoMetric V) : MetricAttrs V :=
  init p.key p.value p.timestamp p.step (some (pyDictOfList p.dimensions))

end Metric

/-! ## The system-metrics monitor (`mlflow/system_metrics/system_metrics_monitor.py`)

A measurement source (`CPUMonitor` etc.) is a record of its four observable
members: `collect_metrics`, the `_metrics` buffer attribute, `aggregate_metrics`
and `clear_metrics`, over a per-source internal state type `σ` and metric value
type `V`.  The monitor state pairs each source with its current internal state.

External collaborators are oracles indexed by call count:
- `oracle n` is the answer of the `n`-th `get_run` call (`.error` = the call
  raised; `.ok s` = the returned run has `run.info.status = s`);
- `shutdownSeen n` is the value of the `n`-th `self._shutdown_event.is_set()`
  observation (the event's state when that check runs);
- `sinkOk n` is whether the `n`-th `mlflow_logger.record_metrics` call returns
  (`false` = it raised).
The interruptible `self._shutdown_event.wait(self.sampling_interval)` has no
modelled effect: its return value is discarded by the loop, and only the
subsequent `is_set()` observations matter. -/

/-- A pluggable measurement source as the monitor sees it. -/
structure Source (σ V : Type) where
  collect_metrics : σ → σ
  metricsBuf : σ → List (String × V)
  aggregate_metrics : σ → List (String × V)
  clear_metrics : σ → σ

/-- Per-call answer streams of the external collaborators. -/
structure Env where
  oracle : Nat → Except Unit String
  shutdownSeen : Nat → Bool
  sinkOk : Nat → Bool

/-- The construction-time configuration: `self.samples_before_logging` and
`self.sampling_interval`, resolved once in `__init__` and immutable afterwards.
The interval only sets the wait duration, which the logic never inspects. -/
structure MonitorCfg where
  samples_before_logging : Nat
  sampling_interval : Int

/-- The monitor's mutable state, together with the call counters of the three
oracles and the record of the successful publishes `(batch, step)` so far. -/
structure LoopState (σ V : Type) where
  monitors : List (Source σ V × σ)
  logging_step : Nat
  oracleIdx : Nat
  shutdownIdx : Nat
  sinkIdx : Nat
  publishes : List (List (String × V) × Nat)

namespace SystemMetricsMonitor

/-- Method `SystemMetricsMonitor.collect_metrics`: for each source, call its
`collect_metrics` and merge its `_metrics` attribute into a fresh dict, which
is returned.  (Each iteration of the Python loop touches only that source's
own state, so collecting all sources and then merging all buffers is the same
as the interleaved order of the source text.) -/
def collect_metrics {σ V : Type} (st : LoopState σ V) :
    LoopState σ V × List (String × V) :=
  let ms := st.monitors.map (fun p => (p.1, p.1.collect_metrics p.2))
  ({ st with monitors := ms },
   ms.foldl (fun acc p => dictUpdate acc (p.1.metricsBuf p.2)) [])

/-- Method `SystemMetricsMonitor.aggregate_metrics`: merge every source's
`aggregate_metrics()` result into a fresh dict. -/
def aggregate_metrics {σ V : Type} (st : LoopState σ V) : List (String × V) :=
  st.monitors.foldl (fun acc p => dictUpdate acc (p.1.aggregate_metrics p.2)) []

/-- Method `SystemMetricsMonitor.publish_metrics`: call
`self.mlflow_logger.record_metrics(metrics, self._logging_step)`; if it
returns, increment `_logging_step` and call `clear_metrics` on every source and
report success; if it raises, nothing after the sink call runs and the raise is
reported (`false`).  A sink call is consumed either way. -/
def publish_metrics {σ V : Type} (env : Env) (st : LoopState σ V)
    (metrics : List (String × V)) : LoopState σ V × Bool :=
  if env.sinkOk st.sinkIdx then
    ({ st with
        sinkIdx := st.sinkIdx + 1
        publishes := st.publishes ++ [(metrics, st.logging_step)]
        logging_step := st.logging_step + 1
        monitors := st.monitors.map (fun p => (p.1, p.1.clear_metrics p.2)) }, true)
  else
    ({ st with sinkIdx := st.sinkIdx + 1 }, false)

/-- Why one iteration of the inner sampling loop stopped early. -/
inductive InnerExit
  | oracleError
  | notRunning
  | shutdownSet
  deriving DecidableEq, Repr

/-- One iteration of the inner `for _ in range(self.samples_before_logging)`
body: `self.collect_metrics()` (return value discarded), the interruptible
wait, the `get_run` query (a raise returns from `monitor`), then
`if run.info.status != "RUNNING" or self._shutdown_event.is_set(): return` -
the `is_set()` observation is consumed only when the status is `"RUNNING"`
(Python `or` short-circuits). -/
def innerIter {σ V : Type} (env : Env) (st : LoopState σ V) :
    LoopState σ V × Option InnerExit :=
  let st1 := (collect_metrics st).1
  match env.oracle st1.oracleIdx with
  | .error _ => ({ st1 with oracleIdx := st1.oracleIdx + 1 }, some .oracleError)
  | .ok status =>
    let st2 := { st1 with oracleIdx := st1.oracleIdx + 1 }
    if status = "RUNNING" then
      if env.shutdownSeen st2.shutdownIdx then
        ({ st2 with shutdownIdx := st2.shutdownIdx + 1 }, some .shutdownSet)
      else ({ st2 with shutdownIdx := st2.shutdownIdx + 1 }, none)
    else (st2, some .notRunning)

/-- The inner sampling loop: `samples_before_logging` iterations, stopping at
the first early exit. -/
def innerLoop {σ V : Type} (env : Env) : Nat → LoopState σ V →
    LoopState σ V × Option InnerExit
  | 0, st => (st, none)
  | n + 1, st =>
    match innerIter env st with
    | (st1, none) => innerLoop env n st1
    | (st1, some r) => (st1, some r)

/-- Why `SystemMetricsMonitor.monitor` returned (or ran out of fuel). -/
inductive ExitReason
  | shutdownRequested
  | oracleError
  | runNotRunning
  | shutdownAfterWait
  | publishFailed
  | fuelExhausted
  deriving DecidableEq, Repr

/-- The `while not self._shutdown_event.is_set():` loop of
`SystemMetricsMonitor.monitor`, with fuel bounding the number of outer
cycles (the Python loop has no intrinsic bound). -/
def monitorLoop {σ V : Type} (cfg : MonitorCfg) (env : Env) :
    Nat → LoopState σ V → LoopState σ V × ExitReason
  | 0, st => (st, .fuelExhausted)
  | fuel + 1, st =>
    if env.shutdownSeen st.shutdownIdx then
      ({ st with shutdownIdx := st.shutdownIdx + 1 }, .shutdownRequested)
    else
      let st0 := { st with shutdownIdx := st.shutdownIdx + 1 }
      match innerLoop env cfg.samples_before_logging st0 with
      | (st1, some .oracleError) => (st1, .oracleError)
      | (st1, some .notRunning) => (st1, .runNotRunning)
      | (st1, some .shutdownSet) => (st1, .shutdownAfterWait)
      | (st1, none) =>
        match publish_metrics env st1 (aggregate_metrics st1) with
        | (st2, true) => monitorLoop cfg env fuel st2
        | (st2, false) => (st2, .publishFailed)

/-- The state right after `__init__`: `_logging_step = 0`, no oracle calls
made, nothing published. -/
def initState {σ V : Type} (srcs : List (Source σ V × σ)) : LoopState σ V :=
  ⟨srcs, 0, 0, 0, 0, []⟩

/-- Method `SystemMetricsMonitor.monitor` run on a freshly constructed monitor. -/
def monitor {σ V : Type} (cfg : MonitorCfg) (env : Env) (fuel : Nat)
    (srcs : List (Source σ V × σ)) : LoopState σ V × ExitReason :=
  monitorLoop cfg env fuel (initState srcs)

end SystemMetricsMonitor

namespace SystemMetricsMonitor

/-- A mock source for the C1 scenario: each `collect_metrics` records one
sample, and both the `_metrics` buffer and the aggregation report the
constant value under the source's one metric name. -/
def mockSource (name : String) (c : Int) : Source (List Int) Int :=
  { collect_metrics := fun s => s ++ [c]
    metricsBuf := fun _ => [(name, c)]
    aggregate_metrics := fun _ => [(name, c)]
    clear_metrics := fun _ => [] }

/-- Four mock sources with distinct metric names and constant values. -/
def scenarioSources : List (Source (List Int) Int × List Int) :=
  [(mockSource "cpu" 1, []), (mockSource "disk" 2, []),
   (mockSource "network" 3, []), (mockSource "gpu" 4, [])]

/-- The C1 environment: the run is reported `RUNNING` on the first three
status queries and terminated on the fourth; the shutdown event is never set;
the sink never fails. -/
def scenarioEnv : Env :=
  { oracle := fun n => if n < 3 then .ok "RUNNING" else .ok "FINISHED"
    shutdownSeen := fun _ => false
    sinkOk := fun _ => true }
end SystemMetricsMonitor

/-! ## Construction, configuration, start and finish -/

/-- A log record's severity. -/
inductive LogLevel
  | info
  | warning
  | errorLevel
  deriving DecidableEq, Repr

/-- The default source kinds assembled by `SystemMetricsMonitor.__init__`. -/
inductive SrcKind
  | cpu
  | disk
  | network
  | gpu
  deriving DecidableEq, Repr

namespace SystemMetricsMonitor

/-- The source-list assembly of `__init__`:
`self.monitors = [CPUMonitor(), DiskMonitor(), NetworkMonitor()]`, then
`GPUMonitor()` inside `try:` - on success it is appended, on any exception a
warning is logged and it is omitted.  `gpuCtor` is whether `GPUMonitor()`
returned or raised (with the exception message). -/
def buildMonitors (gpuCtor : Except String Unit) : List SrcKind × List LogLevel :=
  let ms := [SrcKind.cpu, SrcKind.disk, SrcKind.network]
  match gpuCtor with
  | .ok _ => (ms ++ [SrcKind.gpu], [])
  | .error _ => (ms, [LogLevel.warning])

/-- The configuration resolution of `__init__`:
`MLFLOW_..._X.get() or x_argument`.  `envVal` is what `.get()` returned
(`none` when the environment variable is unset); Python `or` takes the
right operand whenever the left is falsy, and a numeric value is falsy
exactly when it is zero. -/
def resolveConfigValue (envVal : Option Int) (arg : Int) : Int :=
  match envVal with
  | none => arg
  | some v => if v = 0 then arg else v

/-- The monitor fields that `start`/`finish` touch: the `_process` thread
handle (`none` = absent) and whether `_shutdown_event` has been set. -/
structure MonProcState where
  process : Option Unit
  shutdownSet : Bool
  deriving DecidableEq, Repr

/-- What a `finish()` call did: the resulting state, whether a join was
attempted, and what it logged.  `finish` always returns normally, so there
is no error outcome. -/
structure FinishResult where
  state : MonProcState
  joinAttempted : Bool
  logs : List LogLevel
  deriving DecidableEq, Repr

/-- Method `SystemMetricsMonitor.start`: spawn the thread inside `try:`; on success
`_process` holds the handle and an info line is logged; on failure a warning
is logged and `_process` is set back to `None`. -/
def start (spawnOk : Bool) (st : MonProcState) : MonProcState × List LogLevel :=
  if spawnOk then ({ st with process := some () }, [LogLevel.info])
  else ({ st with process := none }, [LogLevel.warning])

/-- Method `SystemMetricsMonitor.finish`: `if self._process is None: return`;
otherwise log, set `_shutdown_event`, join inside `try:` (an info line on
success, an error line on a join failure, never re-raised), and finally set
`_process = None`.  `joinOk` is whether `self._process.join()` returned or
raised. -/
def finish (joinOk : Bool) (st : MonProcState) : FinishResult :=
  match st.process with
  | none => ⟨st, false, []⟩
  | some _ =>
    let st1 : MonProcState := { st with shutdownSet := true }
    match (if joinOk then Except.ok () else Except.error "join failed" :
        Except String Unit) with
    | .ok _ => ⟨{ st1 with process := none }, true, [LogLevel.info, LogLevel.info]⟩
    | .error _ =>
      ⟨{ st1 with process := none }, true, [LogLevel.info, LogLevel.errorLevel]⟩

/-! Helpers for the frame/effect claim about source access. -/

/-- Replace every source object by `f` of it, keeping each source's internal
state. -/
def mapMonitors {σ V : Type} (f : Source σ V → Source σ V) (st : LoopState σ V) :
    LoopState σ V :=
  { st with monitors := st.monitors.map (fun p => (f p.1, p.2)) }

/-- Everything observable about a monitor state except the source objects
themselves: the sources' internal states, the counters and the publishes. -/
def obs {σ V : Type} (st : LoopState σ V) :
    List σ × Nat × Nat × Nat × Nat × List (List (String × V) × Nat) :=
  (st.monitors.map Prod.snd, st.logging_step, st.oracleIdx, st.shutdownIdx,
   st.sinkIdx, st.publishes)

/-- Asserts `f` rewrites a source without changing its `collect_metrics`,
`aggregate_metrics` and `clear_metrics` operations (it may change what the
`_metrics` buffer attribute exposes). -/
def PreservesIfc {σ V : Type} (f : Source σ V → Source σ V) : Prop :=
  ∀ s, (f s).collect_metrics = s.collect_metrics ∧
    (f s).aggregate_metrics = s.aggregate_metrics ∧
    (f s).clear_metrics = s.clear_metrics

/-- A source transformation that keeps the three interface operations but
hides the `_metrics` buffer attribute. -/
def eraseBuf : Source Unit Int → Source Unit Int :=
  fun s => { s with metricsBuf := fun _ => [] }

/-- A concrete single-source monitor state for the frame claim: the source's
`_metrics` buffer exposes one entry. -/
def bufSrcA : Source Unit Int :=
  { collect_metrics := id
    metricsBuf := fun _ => [("x", 1)]
    aggregate_metrics := fun _ => [("x", 1)]
    clear_metrics := id }

/-- Identical to `bufSrcA` on `collect_metrics`, `aggregate_metrics` and
`clear_metrics`, but with an empty `_metrics` buffer attribute. -/
def bufSrcB : Source Unit Int :=
  { collect_metrics := id
    metricsBuf := fun _ => []
    aggregate_metrics := fun _ => [("x", 1)]
    clear_metrics := id }

/-- Environment for the sink-failure scenario: the run stays `RUNNING`, the
shutdown event is never set, and every sink call raises. -/
def sinkFailEnv : Env :=
  { oracle := fun _ => .ok "RUNNING"
    shutdownSeen := fun _ => false
    sinkOk := fun _ => false }

/-- Environment for the oracle-failure scenario: the very first `get_run`
call raises. -/
def oracleFailEnv : Env :=
  { oracle := fun _ => .error ()
    shutdownSeen := fun _ => false
    sinkOk := fun _ => true }

end SystemMetricsMonitor

/-! ## Theorems -/

theorem dictInsert_of_newKey {K V : Type} [DecidableEq K] (d : List (K × V)) (k : K) (v : V)
    (h : ∀ p ∈ d, p.1 ≠ k) : dictInsert d k v = d ++ [(k, v)] := by
  unfold dictInsert
  rw [if_neg]
  simp only [List.any_eq_true, beq_iff_eq, not_exists]
  intro p hp
  exact h p hp.1 hp.2

theorem dictUpdate_of_disjoint {K V : Type} [DecidableEq K] :
    ∀ (u d : List (K × V)), keysNodup u → (∀ p ∈ u, ∀ q ∈ d, p.1 ≠ q.1) →
      dictUpdate d u = d ++ u := by
  intro u
  induction u with
  | nil => intro d _ _; simp [dictUpdate]
  | cons p t ih =>
    intro d hnd hdisj
    have hstep : dictInsert d p.1 p.2 = d ++ [p] := by
      have hnew : ∀ q ∈ d, q.1 ≠ p.1 := by
        intro q hq hqk
        exact hdisj p (List.mem_cons_self p t) q hq hqk.symm
      simpa using dictInsert_of_newKey d p.1 p.2 hnew
    have hnd' : keysNodup t := by
      simpa [keysNodup] using (List.nodup_cons.mp (by simpa [keysNodup] using hnd)).2
    have hdisj' : ∀ a ∈ t, ∀ q ∈ d ++ [p], a.1 ≠ q.1 := by
      intro a ha q hq
      rcases List.mem_append.mp hq with hqd | hqp
      · exact hdisj a (List.mem_cons_of_mem p ha) q hqd
      · have hq' : q = p := by simpa using hqp
        have hp1 : p.1 ∉ t.map Prod.fst :=
          (List.nodup_cons.mp (by simpa [keysNodup] using hnd)).1
        intro hak
        rw [hq'] at hak
        exact hp1 (hak ▸ List.mem_map_of_mem Prod.fst ha)
    calc dictUpdate d (p :: t)
        = dictUpdate (dictInsert d p.1 p.2) t := by simp [dictUpdate]
      _ = dictUpdate (d ++ [p]) t := by rw [hstep]
      _ = (d ++ [p]) ++ t := ih (d ++ [p]) hnd' hdisj'
      _ = d ++ p :: t := by simp

theorem pyDictOfList_of_nodup {K V : Type} [DecidableEq K] (l : List (K × V))
    (h : keysNodup l) : pyDictOfList l = l := by
  have := dictUpdate_of_disjoint l [] h (by simp)
  simpa [pyDictOfList] using this

theorem dictGet?_of_nodup {K V : Type} [DecidableEq K] :
    ∀ (l : List (K × V)), keysNodup l → ∀ p ∈ l, dictGet? l p.1 = some p.2 := by
  intro l
  induction l with
  | nil => simp
  | cons q t ih =>
    intro hnd p hp
    have hq1 : q.1 ∉ t.map Prod.fst :=
      (List.nodup_cons.mp (by simpa [keysNodup] using hnd)).1
    rcases List.mem_cons.mp hp with hpq | hpt
    · subst hpq; simp [dictGet?]
    · have hne : q.1 ≠ p.1 := by
        intro he
        exact hq1 (he ▸ List.mem_map_of_mem Prod.fst hpt)
      have hnd' : keysNodup t := by
        simpa [keysNodup] using (List.nodup_cons.mp (by simpa [keysNodup] using hnd)).2
      simp [dictGet?, hne, ih hnd' p hpt]

theorem pyDictEq_refl_of_nodup {K V : Type} [DecidableEq K] [DecidableEq V]
    (a : List (K × V)) (h : keysNodup a) : pyDictEq a a = true := by
  unfold pyDictEq
  rw [Bool.and_eq_true]
  constructor <;>
  · rw [List.all_eq_true]
    intro p hp
    simpa using dictGet?_of_nodup a h p hp

/-- C9: for every `Metric` built by `Metric.__init__`, `hash()` raises
`AttributeError`, because `__hash__` reads `self._dimensions`, an attribute
`__init__` never assigns (the `tags` argument is stored under `_tags`), so no
such `Metric` object is hashable even though the class defines both `__eq__`
and `__hash__`.  (The base class `_MLflowObject` is outside the excerpt; per
the spec the value object is a plain record, so the base contributes no
instance attributes.) -/
theorem metric_hash_raises_attribute_error {V : Type} (key : String) (value : V)
    (timestamp step : Int) (tags : Option (List (String × String))) :
    Metric.hashInput (Metric.init key value timestamp step tags) =
      .error .attributeError := rfl

/-- C10: for every `Metric` built by `__init__` from a string key, a value, an
integer timestamp and step, and a `tags` argument that is `None` or a
string-to-string mapping (distinct keys), `Metric.from_proto(m.to_proto())`
equals `m` under `Metric.__eq__`; in particular `__init__` normalizes a falsy
`tags` to the empty dict, so the round trip through the proto's dimensions
list preserves equality even when `tags` was `None`. -/
theorem to_proto_init {V : Type} (key : String) (value : V) (timestamp step : Int)
    (tags : Option (List (String × String))) :
    Metric.to_proto (Metric.init key value timestamp step tags) =
      .ok ⟨key, value, timestamp, step, tags.getD []⟩ := by
  cases tags <;> rfl

theorem init_tags_normalized {V : Type} (key : String) (value : V) (timestamp step : Int)
    (tags : Option (List (String × String))) :
    Metric.init key value timestamp step tags =
      Metric.init key value timestamp step (some (tags.getD [])) := by
  cases tags <;> rfl

/-- C10 counterexample: the round-trip claim quantifies over every float
value, but at `value = nan` it fails: `from_proto(m.to_proto())` carries a
`nan` again, and the `__dict__` comparison inside `__eq__` evaluates
`nan == nan`, which is `False` in Python, so the rebuilt metric does not
equal `m`. -/
theorem metric_roundtrip_fails_at_nan :
    (Metric.to_proto (Metric.init "loss" PyFloat.nan 1999 0 none)).map
      (fun p => Metric.eq pyFloatEq (Metric.from_proto p)
        (Metric.init "loss" PyFloat.nan 1999 0 none)) = .ok false := rfl

/-- C10 amended: for every `Metric` built by `__init__` from a string key, a
float value that is not `nan` (equivalently, a value on which Python `==` is
reflexive, `veq value value = true`), an integer timestamp and step, and a
`tags` argument that is `None` or a string-to-string mapping (distinct keys),
`Metric.from_proto(m.to_proto())` equals `m` under `Metric.__eq__`; in
particular `__init__` normalizes a falsy `tags` to the empty mapping, so the
round trip through the proto's dimensions list preserves equality even when
`tags` was `None`.  At `value = nan` the round trip compares two `nan`
floats and `__eq__` returns `False`. -/
theorem metric_proto_roundtrip {V : Type} (veq : V → V → Bool) (key : String)
    (value : V) (timestamp step : Int) (tags : Option (List (String × String)))
    (hv : veq value value = true) (h : keysNodup (tags.getD [])) :
    (Metric.to_proto (Metric.init key value timestamp step tags)).map
      (fun p => Metric.eq veq (Metric.from_proto p)
        (Metric.init key value timestamp step tags)) = .ok true := by
  have hD : pyDictOfList (tags.getD []) = tags.getD [] := pyDictOfList_of_nodup _ h
  have hE : pyDictEq (tags.getD []) (tags.getD []) = true := pyDictEq_refl_of_nodup _ h
  rw [to_proto_init, init_tags_normalized]
  show Except.ok (Metric.eq veq
      (Metric.from_proto ⟨key, value, timestamp, step, tags.getD []⟩)
      (Metric.init key value timestamp step (some (tags.getD [])))) = Except.ok true
  unfold Metric.from_proto
  rw [hD]
  simp [Metric.eq, Metric.init, hE, hv]

/-- Witness for the amended round-trip theorem at a concrete metric whose
float value is numeric (so Python `==` is reflexive on it) with one tag. -/
theorem metric_proto_roundtrip_witness :
    (pyFloatEq (PyFloat.num 93) (PyFloat.num 93) = true ∧
     keysNodup ((some [("country", "se")] : Option (List (String × String))).getD [])) ∧
    (Metric.to_proto (Metric.init "r2" (PyFloat.num 93) 1999 0
        (some [("country", "se")]))).map
      (fun p => Metric.eq pyFloatEq (Metric.from_proto p)
        (Metric.init "r2" (PyFloat.num 93) 1999 0 (some [("country", "se")]))) =
      .ok true :=
  ⟨⟨by decide, by unfold keysNodup; decide⟩,
   metric_proto_roundtrip pyFloatEq "r2" (PyFloat.num 93) 1999 0
     (some [("country", "se")]) (by decide) (by unfold keysNodup; decide)⟩

namespace SystemMetricsMonitor

theorem innerIter_frame {σ V : Type} (env : Env) (st : LoopState σ V) :
    (innerIter env st).1.publishes = st.publishes ∧
    (innerIter env st).1.logging_step = st.logging_step ∧
    (innerIter env st).1.sinkIdx = st.sinkIdx := by
  simp only [innerIter, collect_metrics]
  cases env.oracle st.oracleIdx with
  | error e => simp
  | ok status =>
    by_cases hs : status = "RUNNING"
    · by_cases hb : env.shutdownSeen st.shutdownIdx <;> simp [hs, hb]
    · simp [hs]

theorem innerLoop_frame {σ V : Type} (env : Env) (n : Nat) :
    ∀ (st : LoopState σ V),
      (innerLoop env n st).1.publishes = st.publishes ∧
      (innerLoop env n st).1.logging_step = st.logging_step ∧
      (innerLoop env n st).1.sinkIdx = st.sinkIdx := by
  induction n with
  | zero => intro st; exact ⟨rfl, rfl, rfl⟩
  | succ n ih =>
    intro st
    have hf := innerIter_frame env st
    unfold innerLoop
    cases hi : innerIter env st with
    | mk st1 r =>
      rw [hi] at hf
      cases r with
      | none =>
        exact ⟨(ih st1).1.trans hf.1, (ih st1).2.1.trans hf.2.1,
          (ih st1).2.2.trans hf.2.2⟩
      | some r => exact hf

/-- The step bookkeeping invariant of the monitoring loop: starting from a
state whose published steps are exactly `0, 1, ...` matching `_logging_step`
and whose sink-call count matches its successful-publish count, the loop
preserves all of that; moreover the sink-call count exceeds the
successful-publish count by exactly one precisely when the loop exited
because a publish raised. -/
theorem monitorLoop_inv {σ V : Type} (cfg : MonitorCfg) (env : Env) (fuel : Nat) :
    ∀ (st : LoopState σ V),
      st.logging_step = st.publishes.length →
      st.publishes.map Prod.snd = List.range st.publishes.length →
      st.sinkIdx = st.publishes.length →
      ((monitorLoop cfg env fuel st).1.logging_step =
         (monitorLoop cfg env fuel st).1.publishes.length ∧
       (monitorLoop cfg env fuel st).1.publishes.map Prod.snd =
         List.range (monitorLoop cfg env fuel st).1.publishes.length ∧
       ((monitorLoop cfg env fuel st).2 ≠ .publishFailed →
         (monitorLoop cfg env fuel st).1.sinkIdx =
           (monitorLoop cfg env fuel st).1.publishes.length) ∧
       ((monitorLoop cfg env fuel st).2 = .publishFailed →
         (monitorLoop cfg env fuel st).1.sinkIdx =
           (monitorLoop cfg env fuel st).1.publishes.length + 1)) := by
  induction fuel with
  | zero =>
    intro st h1 h2 h3
    simp only [monitorLoop]
    exact ⟨h1, h2, fun _ => h3, fun hc => ExitReason.noConfusion hc⟩
  | succ fuel ih =>
    intro st h1 h2 h3
    simp only [monitorLoop]
    by_cases hsd : env.shutdownSeen st.shutdownIdx
    · rw [if_pos hsd]
      exact ⟨h1, h2, fun _ => h3, fun hc => ExitReason.noConfusion hc⟩
    · rw [if_neg hsd]
      have hfr := innerLoop_frame env cfg.samples_before_logging
        { st with shutdownIdx := st.shutdownIdx + 1 }
      cases hil : innerLoop env cfg.samples_before_logging
          { st with shutdownIdx := st.shutdownIdx + 1 } with
      | mk st1 r =>
        rw [hil] at hfr
        have e1 : st1.publishes = st.publishes := hfr.1
        have e2 : st1.logging_step = st.logging_step := hfr.2.1
        have e3 : st1.sinkIdx = st.sinkIdx := hfr.2.2
        cases r with
        | some r' =>
          cases r' <;> dsimp only <;>
            exact ⟨by rw [e1, e2]; exact h1, by rw [e1]; exact h2,
              fun _ => by rw [e1, e3]; exact h3, fun hc => ExitReason.noConfusion hc⟩
        | none =>
          dsimp only
          by_cases hk : env.sinkOk st1.sinkIdx
          · have hpub : publish_metrics env st1 (aggregate_metrics st1) =
                ({ st1 with
                    sinkIdx := st1.sinkIdx + 1
                    publishes := st1.publishes ++
                      [(aggregate_metrics st1, st1.logging_step)]
                    logging_step := st1.logging_step + 1
                    monitors := st1.monitors.map
                      (fun p => (p.1, p.1.clear_metrics p.2)) }, true) := by
              simp [publish_metrics, hk]
            rw [hpub]
            dsimp only
            apply ih
            · simp [e1, e2, h1]
            · simp only [List.map_append, List.length_append, e1, e2, h1, h2,
                List.map_cons, List.map_nil, List.length_cons, List.length_nil]
              rw [← List.range_succ]
            · simp [e1, e3, h3]
          · have hpub : publish_metrics env st1 (aggregate_metrics st1) =
                ({ st1 with sinkIdx := st1.sinkIdx + 1 }, false) := by
              simp [publish_metrics, hk]
            rw [hpub]
            dsimp only
            exact ⟨by rw [e1, e2]; exact h1, by rw [e1]; exact h2,
              fun hne => absurd rfl hne,
              fun _ => by rw [e3, e1, h3]⟩

end SystemMetricsMonitor

namespace SystemMetricsMonitor

/-- C1: with interval one time-unit, `samples_before_logging = 3`, four mock
sources each contributing a constant value under a distinct metric name, and
the run reported `RUNNING` for the first three status queries and terminated
on the fourth, the loop performs exactly one publish, at `logging_step` 0,
whose batch has exactly one aggregated value per source's metric name, and
then exits (because the run is no longer `RUNNING`) without a second
publish. -/
theorem scenario_single_publish :
    (monitor ⟨3, 1⟩ scenarioEnv 4 scenarioSources).1.publishes =
      [([("cpu", 1), ("disk", 2), ("network", 3), ("gpu", 4)], 0)] ∧
    (monitor ⟨3, 1⟩ scenarioEnv 4 scenarioSources).2 = .runNotRunning ∧
    (monitor ⟨3, 1⟩ scenarioEnv 4 scenarioSources).1.oracleIdx = 4 := by
  decide


end SystemMetricsMonitor

namespace SystemMetricsMonitor

/-- C2: over the lifetime of one monitor, the step values passed to successful
publishes are exactly `0, 1, 2, ...`: `_logging_step` starts at 0 and is
incremented by exactly 1 after each successful sink write and by nothing
else, so published steps are strictly increasing with no gaps, no repeats and
no regression, and at the end `_logging_step` equals the number of successful
publishes. -/
theorem logging_step_exact_sequence {σ V : Type} (cfg : MonitorCfg) (env : Env)
    (fuel : Nat) (srcs : List (Source σ V × σ)) :
    (monitor cfg env fuel srcs).1.publishes.map Prod.snd =
      List.range (monitor cfg env fuel srcs).1.publishes.length ∧
    (monitor cfg env fuel srcs).1.logging_step =
      (monitor cfg env fuel srcs).1.publishes.length := by
  have h := monitorLoop_inv cfg env fuel (initState srcs) rfl rfl rfl
  exact ⟨h.2.1, h.1⟩

/-- C3: if the sink write raises on a publish attempt, the loop exits after
that single failed attempt - the total number of sink calls is the number of
successful publishes plus exactly one, so there is no retry - no exception
reaches the caller (the loop returns normally, with reason `publishFailed`),
`_logging_step` keeps the value it had after the last successful publish,
and a later `finish()` still sets the shutdown event, joins and returns
normally. -/
theorem sink_failure_single_attempt {σ V : Type} (cfg : MonitorCfg) (env : Env)
    (fuel : Nat) (srcs : List (Source σ V × σ)) (joinOk : Bool)
    (h : (monitor cfg env fuel srcs).2 = .publishFailed) :
    (monitor cfg env fuel srcs).1.sinkIdx =
      (monitor cfg env fuel srcs).1.publishes.length + 1 ∧
    (monitor cfg env fuel srcs).1.logging_step =
      (monitor cfg env fuel srcs).1.publishes.length ∧
    (finish joinOk ⟨some (), false⟩).state = ⟨none, true⟩ ∧
    (finish joinOk ⟨some (), false⟩).joinAttempted = true := by
  have hinv := monitorLoop_inv cfg env fuel (initState srcs) rfl rfl rfl
  refine ⟨hinv.2.2.2 h, hinv.1, ?_, ?_⟩ <;> cases joinOk <;> rfl

/-- Witness: with a sink that raises on its first call the loop exits with
`publishFailed` after exactly one attempt. -/
theorem sink_failure_single_attempt_witness :
    (monitor ⟨1, 1⟩ sinkFailEnv 1 [(mockSource "cpu" 1, [])]).2 = .publishFailed ∧
    ((monitor ⟨1, 1⟩ sinkFailEnv 1 [(mockSource "cpu" 1, [])]).1.sinkIdx =
      (monitor ⟨1, 1⟩ sinkFailEnv 1 [(mockSource "cpu" 1, [])]).1.publishes.length + 1 ∧
     (monitor ⟨1, 1⟩ sinkFailEnv 1 [(mockSource "cpu" 1, [])]).1.logging_step =
      (monitor ⟨1, 1⟩ sinkFailEnv 1 [(mockSource "cpu" 1, [])]).1.publishes.length ∧
     (finish true ⟨some (), false⟩).state = ⟨none, true⟩ ∧
     (finish true ⟨some (), false⟩).joinAttempted = true) :=
  ⟨by decide, sink_failure_single_attempt ⟨1, 1⟩ sinkFailEnv 1
    [(mockSource "cpu" 1, [])] true (by decide)⟩

/-- C4: whenever the loop terminated because a `get_run` query raised, or the
queried run's status was not `RUNNING`, or the shutdown event was observed set
after the interruptible wait, the loop stopped without performing the publish
of that incomplete cycle: every sink call it ever made was a successful
publish of a completed cycle, `_logging_step` matches, and no error reaches
the caller (the loop returns normally with the exit reason). -/
theorem early_termination_no_publish {σ V : Type} (cfg : MonitorCfg) (env : Env)
    (fuel : Nat) (srcs : List (Source σ V × σ))
    (h : (monitor cfg env fuel srcs).2 = .oracleError ∨
         (monitor cfg env fuel srcs).2 = .runNotRunning ∨
         (monitor cfg env fuel srcs).2 = .shutdownAfterWait) :
    (monitor cfg env fuel srcs).1.sinkIdx =
      (monitor cfg env fuel srcs).1.publishes.length ∧
    (monitor cfg env fuel srcs).1.logging_step =
      (monitor cfg env fuel srcs).1.publishes.length := by
  have hinv := monitorLoop_inv cfg env fuel (initState srcs) rfl rfl rfl
  have hne : (monitor cfg env fuel srcs).2 ≠ .publishFailed := by
    rcases h with h | h | h <;> rw [h] <;> decide
  exact ⟨hinv.2.2.1 hne, hinv.1⟩

/-- Witness: with an oracle whose first `get_run` call raises, the loop exits
with `oracleError` and has made no sink call. -/
theorem early_termination_no_publish_witness :
    ((monitor ⟨1, 1⟩ oracleFailEnv 1 [(mockSource "cpu" 1, [])]).2 = .oracleError ∨
     (monitor ⟨1, 1⟩ oracleFailEnv 1 [(mockSource "cpu" 1, [])]).2 = .runNotRunning ∨
     (monitor ⟨1, 1⟩ oracleFailEnv 1 [(mockSource "cpu" 1, [])]).2 = .shutdownAfterWait) ∧
    ((monitor ⟨1, 1⟩ oracleFailEnv 1 [(mockSource "cpu" 1, [])]).1.sinkIdx =
      (monitor ⟨1, 1⟩ oracleFailEnv 1 [(mockSource "cpu" 1, [])]).1.publishes.length ∧
     (monitor ⟨1, 1⟩ oracleFailEnv 1 [(mockSource "cpu" 1, [])]).1.logging_step =
      (monitor ⟨1, 1⟩ oracleFailEnv 1 [(mockSource "cpu" 1, [])]).1.publishes.length) :=
  ⟨by decide, early_termination_no_publish ⟨1, 1⟩ oracleFailEnv 1
    [(mockSource "cpu" 1, [])] (by decide)⟩

/-- C5 counterexample: the claim says the environment-variable override is
used whenever one is present and the constructor argument only when none is
present.  But `MLFLOW_..._X.get() or argument` takes the argument whenever
`get()` is falsy, so an override that is present with value 0 is ignored:
here the override `some 0` is present, yet the result is the argument 10,
not the override value 0. -/
theorem config_override_zero_ignored :
    resolveConfigValue (some 0) 10 = 10 ∧ (10 : Int) ≠ 0 := by decide

/-- C5 amended: `sampling_interval` and `samples_before_logging` are each
resolved exactly once at construction; the environment-variable override is
used whenever one is present AND truthy (nonzero), and the explicit
constructor argument is the fallback both when no override is present and
when the present override is falsy (zero). -/
theorem config_resolution_precedence (arg : Int) :
    resolveConfigValue none arg = arg ∧
    resolveConfigValue (some 0) arg = arg ∧
    ∀ v : Int, v ≠ 0 → resolveConfigValue (some v) arg = v := by
  refine ⟨rfl, rfl, fun v hv => ?_⟩
  simp [resolveConfigValue, hv]

/-- Witness for the amended configuration-resolution claim at concrete
values. -/
theorem config_resolution_precedence_witness :
    resolveConfigValue none 10 = 10 ∧
    resolveConfigValue (some 0) 10 = 10 ∧
    ((7 : Int) ≠ 0 ∧ resolveConfigValue (some 7) 10 = 7) :=
  ⟨(config_resolution_precedence 10).1,
   (config_resolution_precedence 10).2.1,
   by decide, (config_resolution_precedence 10).2.2 7 (by decide)⟩

end SystemMetricsMonitor

namespace SystemMetricsMonitor

/-- C6 counterexample: the claim says every Monitor operation interacts with
a source only through `collect_metrics`/`aggregate_metrics`/`clear_metrics`.
`bufSrcA` and `bufSrcB` agree on all three of those operations, yet
`SystemMetricsMonitor.collect_metrics` returns different dicts for them,
because it reads the source's internal `_metrics` buffer attribute
directly (`metrics.update(monitor._metrics)`). -/
theorem collect_reads_buffer_directly :
    bufSrcA.collect_metrics = bufSrcB.collect_metrics ∧
    bufSrcA.aggregate_metrics = bufSrcB.aggregate_metrics ∧
    bufSrcA.clear_metrics = bufSrcB.clear_metrics ∧
    (collect_metrics (initState [(bufSrcA, ())])).2 ≠
      (collect_metrics (initState [(bufSrcB, ())])).2 :=
  ⟨rfl, rfl, rfl, by decide⟩

/-- C6 amended: `aggregate_metrics`, `publish_metrics`, and the state effect
of `collect_metrics` interact with sources only through
`collect_metrics`/`aggregate_metrics`/`clear_metrics` - replacing every
source by one with the same three operations changes none of those results -
but the dict that `SystemMetricsMonitor.collect_metrics` returns additionally
reads the source's `_metrics` buffer directly (that return value is discarded
by the monitoring loop). -/
theorem monitor_ops_use_interface_only {σ V : Type} (f : Source σ V → Source σ V)
    (st : LoopState σ V) (env : Env) (metrics : List (String × V))
    (hf : PreservesIfc f) :
    aggregate_metrics (mapMonitors f st) = aggregate_metrics st ∧
    obs (collect_metrics (mapMonitors f st)).1 = obs (collect_metrics st).1 ∧
    obs (publish_metrics env (mapMonitors f st) metrics).1 =
      obs (publish_metrics env st metrics).1 ∧
    (publish_metrics env (mapMonitors f st) metrics).2 =
      (publish_metrics env st metrics).2 := by
  refine ⟨?_, ?_, ?_, ?_⟩
  · unfold aggregate_metrics mapMonitors
    dsimp only
    rw [List.foldl_map]
    apply List.foldl_ext
    intro acc p _
    rw [(hf p.1).2.1]
  · simp only [collect_metrics, mapMonitors, obs, List.map_map, Function.comp]
    simp
    intro a b _
    rw [(hf a).1]
  · by_cases hk : env.sinkOk st.sinkIdx
    · simp only [publish_metrics, mapMonitors, obs, List.map_map, Function.comp, hk]
      simp
      intro a b _
      rw [(hf a).2.2]
    · simp [publish_metrics, mapMonitors, obs, hk]
  · by_cases hk : env.sinkOk st.sinkIdx <;>
      simp [publish_metrics, mapMonitors, hk]

/-- Witness for the amended frame claim: `eraseBuf` preserves the three
interface operations, and on a concrete one-source state the aggregation,
the collect state effect and the publish outcome are unchanged by it. -/
theorem monitor_ops_use_interface_only_witness :
    PreservesIfc eraseBuf ∧
    (aggregate_metrics (mapMonitors eraseBuf (initState [(bufSrcA, ())])) =
       aggregate_metrics (initState [(bufSrcA, ())]) ∧
     obs (collect_metrics (mapMonitors eraseBuf (initState [(bufSrcA, ())]))).1 =
       obs (collect_metrics (initState [(bufSrcA, ())])).1 ∧
     obs (publish_metrics sinkFailEnv
         (mapMonitors eraseBuf (initState [(bufSrcA, ())])) []).1 =
       obs (publish_metrics sinkFailEnv (initState [(bufSrcA, ())]) []).1 ∧
     (publish_metrics sinkFailEnv
         (mapMonitors eraseBuf (initState [(bufSrcA, ())])) []).2 =
       (publish_metrics sinkFailEnv (initState [(bufSrcA, ())]) []).2) :=
  ⟨fun _ => ⟨rfl, rfl, rfl⟩,
   monitor_ops_use_interface_only eraseBuf (initState [(bufSrcA, ())])
     sinkFailEnv [] (fun _ => ⟨rfl, rfl, rfl⟩)⟩

/-- C7: if `GPUMonitor()` raises any exception during `__init__`, construction
still succeeds with the CPU, Disk and Network sources active, exactly one
warning is logged, and the GPU source is simply omitted; on a successful
GPU construction it is appended after the other three. -/
theorem gpu_failure_keeps_base_sources (e : String) :
    (buildMonitors (.error e)).1 = [.cpu, .disk, .network] ∧
    (buildMonitors (.error e)).2 = [.warning] ∧
    (buildMonitors (.ok ())).1 = [.cpu, .disk, .network, .gpu] :=
  ⟨rfl, rfl, rfl⟩

/-- C8: `finish()` never raises and is structured exactly as claimed: when the
thread handle is absent (never started, or `start` caught a spawn failure and
cleared it) `finish` is a no-op that attempts no join; otherwise it sets the
shutdown event, attempts the join (a join failure is logged as an error, not
re-raised - both join outcomes return normally) and clears the handle; after
any `finish`, the handle is absent, so a second `finish` is a no-op. -/
theorem finish_never_raises (st : MonProcState) (jk jk2 : Bool) :
    (st.process = none → finish jk st = ⟨st, false, []⟩) ∧
    (st.process = some () →
      (finish jk st).state = ⟨none, true⟩ ∧ (finish jk st).joinAttempted = true ∧
      (finish jk st).logs =
        [LogLevel.info, if jk then LogLevel.info else LogLevel.errorLevel]) ∧
    (finish jk st).state.process = none ∧
    finish jk2 (finish jk st).state = ⟨(finish jk st).state, false, []⟩ ∧
    (start false st).1.process = none ∧
    finish jk (start false st).1 = ⟨(start false st).1, false, []⟩ := by
  refine ⟨?_, ?_, ?_, ?_, ?_, ?_⟩
  · intro h
    simp [finish, h]
  · intro h
    cases jk <;> simp [finish, h]
  · cases hp : st.process <;> cases jk <;> simp [finish, hp]
  · cases hp : st.process <;> cases jk <;> cases jk2 <;> simp [finish, hp]
  · simp [start]
  · simp [start, finish]

/-- Witness for the finish claim on concrete states: an idle monitor's
`finish` is a no-op. -/
theorem finish_never_raises_witness :
    ((⟨none, false⟩ : MonProcState).process = none ∧
      finish true ⟨none, false⟩ = ⟨⟨none, false⟩, false, []⟩) ∧
    ((⟨some (), false⟩ : MonProcState).process = some () ∧
      (finish false ⟨some (), false⟩).state = ⟨none, true⟩ ∧
      (finish false ⟨some (), false⟩).joinAttempted = true ∧
      (finish false ⟨some (), false⟩).logs =
        [LogLevel.info, if false then LogLevel.info else LogLevel.errorLevel]) :=
  ⟨⟨rfl, (finish_never_raises ⟨none, false⟩ true true).1 rfl⟩,
   ⟨rfl, (finish_never_raises ⟨some (), false⟩ false true).2.1 rfl⟩⟩

end SystemMetricsMonitor
